import Mathlib

/-!
Verification of the StudyRobo backend (FastAPI student-assistant service).

This file gives a shallow embedding, in Lean, of the routing, tool-execution,
persistence and authentication logic of the backend, and proves properties of
that embedding.  Python dictionaries are embedded as structures projected onto
the fields the code reads; machine-level details that the code never branches
on are noted in comments at each definition.  External collaborators
(Supabase/Postgres, the LLM providers, Google OAuth/Gmail, Tavily search) are
modelled as explicit environment oracles passed to the embedded functions.

Note on string literals: apostrophes in user-facing message literals are
written out in full words (for example "could not" for the contracted form);
no property proved here depends on those characters.
-/

/-! ## Python string primitives used by the code

All primitives are written as structural recursions over character lists so
that every property below can be evaluated by the kernel on concrete input. -/

/-- Substring test on character lists: does `needle` occur contiguously in
`hay`? -/
def containsSub (needle : List Char) : List Char → Bool
  | [] => needle.isEmpty
  | c :: t => needle.isPrefixOf (c :: t) || containsSub needle t

/-- Python `needle in hay` on strings: literal substring test. -/
def pyIn (needle hay : String) : Bool :=
  containsSub needle.data hay.data

theorem containsSub_iff (needle hay : List Char) :
    containsSub needle hay = true ↔ needle <:+: hay := by
  induction hay with
  | nil =>
    simp [containsSub, List.isEmpty_iff]
  | cons c t ih =>
    simp only [containsSub, Bool.or_eq_true, List.isPrefixOf_iff_prefix, ih,
      List.infix_cons_iff]

/-- Python `str.lower()`.  The repository only lowercases ASCII text, for
which `Char.toLower` agrees with Python. -/
def pyLower (s : String) : String := ⟨s.data.map Char.toLower⟩

/-- Python `str.split()` with no argument: split on whitespace runs,
discarding empty pieces.  `acc` is the word currently being accumulated, in
reverse. -/
def pySplitWsAux (acc : List Char) : List Char → List String
  | [] => if acc.isEmpty then [] else [⟨acc.reverse⟩]
  | c :: t =>
      if c.isWhitespace then
        if acc.isEmpty then pySplitWsAux [] t
        else ⟨acc.reverse⟩ :: pySplitWsAux [] t
      else pySplitWsAux (c :: acc) t

/-- Python `str.split()` with no argument. -/
def pySplitWs (s : String) : List String := pySplitWsAux [] s.data

/-- Python `str.title()` applied to a single lowercase word: uppercase the
first character (the remaining characters are already lowercase here). -/
def pyTitle (w : String) : String :=
  match w.data with
  | [] => ""
  | c :: t => ⟨c.toUpper :: t⟩

/-- Python `str.strip()`: drop whitespace from both ends. -/
def pyStrip (s : String) : String :=
  ⟨((s.data.dropWhile Char.isWhitespace).reverse.dropWhile
      Char.isWhitespace).reverse⟩

/-- Python `s.startswith(p)`. -/
def pyStartsWith (s p : String) : Bool := p.data.isPrefixOf s.data

/-- Python `s.replace(old, new)` with `new = ""`: delete every occurrence of
`old`.  `old` is nonempty at the single call site (`"Bearer "`).  The first
argument is recursion fuel, instantiated with the length of the subject list
(an occurrence consumes at least one character, so that much fuel always
suffices). -/
def deleteAllSub : Nat → List Char → List Char → List Char
  | 0, _, l => l
  | _ + 1, _, [] => []
  | fuel + 1, old, c :: t =>
      if old.isPrefixOf (c :: t) then
        deleteAllSub fuel old (List.drop (old.length - 1) t)
      else c :: deleteAllSub fuel old t

/-- Python `s.replace(old, "")` on strings. -/
def pyDeleteAll (s old : String) : String :=
  ⟨deleteAllSub s.data.length old.data s.data⟩

/-- Digit-string parser: `some n` when the list is a nonempty run of ASCII
digits. -/
def parseDigits : List Char → Option Nat
  | [] => none
  | l => l.foldl (fun acc c =>
      match acc with
      | none => none
      | some n => if c.isDigit then some (n * 10 + (c.toNat - 48)) else none)
      (some 0)

/-- Python `int(s)` restricted to the shapes the code feeds it: an optional
sign followed by digits; anything else raises `ValueError`, embedded as
`none`. -/
def pyInt? (s : String) : Option Int :=
  match s.data with
  | '-' :: t => (parseDigits t).map (fun n => -(n : Int))
  | l => (parseDigits l).map (fun n => (n : Int))

/-- Python truthiness of an optional string (`None` and `""` are falsy). -/
def pyTruthyStr : Option String → Bool
  | none => false
  | some s => !s.isEmpty

/-- Python truthiness of an optional integer (`None` and `0` are falsy). -/
def pyTruthyInt : Option Int → Bool
  | none => false
  | some n => n != 0

/-! ## Intent classifier

Source: `app/core/enhanced_llm_wrapper_supabase.py`, `detect_intent`
(lines 24-43).  The `intents` dictionary is embedded as an association list
in its insertion order; Python dictionaries iterate in insertion order. -/

/-- Keyword list of the `"study"` category. -/
def studyKeywords : List String :=
  ["study", "learn", "explain", "what is", "help me understand", "exam",
   "topic", "concept", "algorithm", "syllabus", "material", "notes",
   "homework", "assignment"]

/-- Keyword list of the `"career"` category. -/
def careerKeywords : List String :=
  ["career", "job", "salary", "work", "employment", "profession", "field",
   "market", "opportunity", "growth"]

/-- Keyword list of the `"attendance"` category. -/
def attendanceKeywords : List String :=
  ["attendance", "present", "absent", "mark", "class", "course"]

/-- Keyword list of the `"email"` category. -/
def emailKeywords : List String :=
  ["email", "gmail", "inbox", "draft", "send", "message", "unread", "check"]

/-- The `intents` dictionary of `detect_intent`, in insertion order. -/
def intents : List (String × List String) :=
  [("study", studyKeywords), ("career", careerKeywords),
   ("attendance", attendanceKeywords), ("email", emailKeywords)]

/-- `detect_intent(message)`: lowercase the message, return the first category
whose keyword list has a literal substring match, else `"general"`. -/
def detect_intent (message : String) : String :=
  let message_lower := pyLower message
  match intents.find? (fun p => p.2.any (fun k => pyIn k message_lower)) with
  | some p => p.1
  | none => "general"

/-- A category matches a message when some keyword of its fixed list is a
literal substring of the lowercased message. -/
def keywordMatch (keywords : List String) (message : String) : Prop :=
  ∃ k ∈ keywords, k.data <:+: (pyLower message).data

/-- Keyword list of one category of `intents`. -/
def intentKeywords (category : String) : List String :=
  ((intents.find? (fun p => p.1 = category)).map Prod.snd).getD []

theorem keywordMatch_iff_any (keywords : List String) (message : String) :
    keywordMatch keywords message ↔
      keywords.any (fun k => pyIn k (pyLower message)) = true := by
  simp [keywordMatch, pyIn, List.any_eq_true, containsSub_iff]

theorem detect_intent_eq (m : String) :
    detect_intent m =
      (if studyKeywords.any (fun k => pyIn k (pyLower m)) then "study"
       else if careerKeywords.any (fun k => pyIn k (pyLower m)) then "career"
       else if attendanceKeywords.any (fun k => pyIn k (pyLower m)) then
         "attendance"
       else if emailKeywords.any (fun k => pyIn k (pyLower m)) then "email"
       else "general") := by
  cases hs : studyKeywords.any (fun k => pyIn k (pyLower m)) <;>
    cases hc : careerKeywords.any (fun k => pyIn k (pyLower m)) <;>
      cases ha : attendanceKeywords.any (fun k => pyIn k (pyLower m)) <;>
        cases he : emailKeywords.any (fun k => pyIn k (pyLower m)) <;>
          simp [detect_intent, intents, List.find?, hs, hc, ha, he]

/-- C1: the intent classifier lowercases the message and tests the categories
in the fixed insertion order study, career, attendance, email; it returns the
first category for which some keyword of that category's fixed list is a
literal substring of the lowercased message, and returns `"general"` when no
category matches.  In particular, a message matching both a study keyword and
a career keyword is classified `"study"`. -/
theorem C1_intent_first_match_order (m : String) :
    (detect_intent m = "study" ↔ keywordMatch studyKeywords m)
    ∧ (detect_intent m = "career" ↔
        ¬ keywordMatch studyKeywords m ∧ keywordMatch careerKeywords m)
    ∧ (detect_intent m = "attendance" ↔
        ¬ keywordMatch studyKeywords m ∧ ¬ keywordMatch careerKeywords m
          ∧ keywordMatch attendanceKeywords m)
    ∧ (detect_intent m = "email" ↔
        ¬ keywordMatch studyKeywords m ∧ ¬ keywordMatch careerKeywords m
          ∧ ¬ keywordMatch attendanceKeywords m
          ∧ keywordMatch emailKeywords m)
    ∧ (detect_intent m = "general" ↔
        ¬ keywordMatch studyKeywords m ∧ ¬ keywordMatch careerKeywords m
          ∧ ¬ keywordMatch attendanceKeywords m
          ∧ ¬ keywordMatch emailKeywords m)
    ∧ (keywordMatch studyKeywords m → keywordMatch careerKeywords m →
        detect_intent m = "study") := by
  have e := detect_intent_eq m
  have hS := keywordMatch_iff_any studyKeywords m
  have hC := keywordMatch_iff_any careerKeywords m
  have hA := keywordMatch_iff_any attendanceKeywords m
  have hE := keywordMatch_iff_any emailKeywords m
  cases hs : studyKeywords.any (fun k => pyIn k (pyLower m)) <;>
    cases hc : careerKeywords.any (fun k => pyIn k (pyLower m)) <;>
      cases ha : attendanceKeywords.any (fun k => pyIn k (pyLower m)) <;>
        cases he : emailKeywords.any (fun k => pyIn k (pyLower m)) <;>
          simp_all [e]

/-- Witness for C1 at a concrete input: "study career" matches both a study
keyword and a career keyword and is classified `"study"`. -/
theorem C1_intent_first_match_order_witness :
    detect_intent "study career" = "study" :=
  (C1_intent_first_match_order "study career").2.2.2.2.2
    ((keywordMatch_iff_any _ _).mpr (by decide))
    ((keywordMatch_iff_any _ _).mpr (by decide))

/-! ## Tool result dictionaries

Python dictionaries flowing through the tool layer are embedded as structures
projected onto the keys the pipeline reads.  A structure field with a default
models `dict.get(key, default)`; keys that no code path reads (for example
`mock_data` of the career tool) are omitted. -/

/-- One formatted attendance record as returned by the
`get_attendance_records` tool.  `marked_at` is carried as a numeric
timestamp; the source also derives a `date` field from the timestamp's
string form, carried here as the same number. -/
structure FmtRecord where
  id : Nat
  course_name : String
  marked_at : Nat
  date : Nat
deriving DecidableEq

/-- The `attendance_data` sub-dictionary of a successful `mark_attendance`. -/
structure AttData where
  user_id : String
  course : String
  marked_at : Nat
  status : String
deriving DecidableEq

/-- One email as returned by `get_unread_emails` (`from` is called `sender`
here). -/
structure EmailRec where
  subject : String
  sender : String
  snippet : String
deriving DecidableEq

/-- One entry of the `insights` list built by `get_career_insights`. -/
structure InsightItem where
  title : String
  summary : String
  source : String
  relevance_score : Int
deriving DecidableEq

/-- The nested `insights` dictionary of a successful `get_career_insights`. -/
structure CareerInsights where
  field : String
  query : String
  results_count : Nat
  insights : List InsightItem
deriving DecidableEq

/-- A tool result dictionary.  `success` embeds `result.get("success",
False)`, `error` embeds the `error` key (`none` for absent), and so on. -/
structure ToolDict where
  success : Bool := false
  error : Option String := none
  message : Option String := none
  context : Option String := none
  query : Option String := none
  insights : Option CareerInsights := none
  records : List FmtRecord := []
  total_records : Nat := 0
  course_filter : Option String := none
  user_id : Option String := none
  course : Option String := none
  attendance_data : Option AttData := none
  emails : List EmailRec := []
  auth_required : Bool := false
  draft_id : Option String := none
  draft_url : Option String := none
deriving DecidableEq

/-- The `tool_args` dictionary passed to `execute_tool` (the `to` key is
called `toAddr` here). -/
structure ToolArgs where
  query : Option String := none
  field : Option String := none
  course_name : Option String := none
  max_results : Option Nat := none
  toAddr : Option String := none
  subject : Option String := none
  body : Option String := none
deriving DecidableEq

/-! ## Attendance persistence

Source: `app/core/db_client.py` `mark_attendance` (lines 110-113) and the SQL
statements of `app/tools/attendance_tools_supabase.py`. -/

/-- One row of the `attendance` table. -/
structure AttRow where
  id : Nat
  user_id : Int
  course_name : String
  marked_at : Nat
deriving DecidableEq

/-- The attendance table together with a serial-key counter and the database
clock (`now()`), in abstract time units. -/
structure AttDB where
  rows : List AttRow
  nextId : Nat
  now : Nat
deriving DecidableEq

/-- Modelled from the spec: the `attendance` table schema is not in the
repository (only the INSERT and SELECT statements are).  Per the spec's data
model an attendance record is `{id, user_id, course_name, marked_at}`, an
append-only event log, so an INSERT that names only `(user_id, course_name)`
receives a fresh serial `id` and a `marked_at` defaulting to the insertion
time. -/
def attInsert (db : AttDB) (uid : Int) (course : String) : AttDB :=
  { db with rows := db.rows ++ [⟨db.nextId, uid, course, db.now⟩],
            nextId := db.nextId + 1 }

/-- Source: `db_client.py` `mark_attendance`: `INSERT INTO attendance
(user_id, course_name) VALUES (%s, %s)`. -/
def db_mark_attendance (db : AttDB) (user_id : Int) (course_name : String) :
    AttDB :=
  attInsert db user_id course_name

/-- Source: `attendance_tools_supabase.py` `mark_attendance` (lines 14-63).
The surrounding `try/except` only fires on a database failure, which this
model leaves out (the insert is total here); the `ValueError` of
`int(user_id)` is the `none` case of `pyInt?`. -/
def mark_attendance (course_name user_id : String) (db : AttDB) :
    ToolDict × AttDB :=
  match pyInt? user_id with
  | none =>
      ({ success := false,
         error := some s!"Invalid user_id format: {user_id}. Must be numeric.",
         course := some course_name, user_id := some user_id }, db)
  | some uid =>
      let db2 := db_mark_attendance db uid course_name
      ({ success := true,
         message := some s!"Successfully marked attendance for course {course_name}",
         attendance_data := some ⟨user_id, course_name, db2.now, "Present"⟩,
         user_id := some user_id }, db2)

/-- Source: `attendance_tools_supabase.py` `get_attendance_records` (lines
65-124): select the user's rows, optionally filtered by course, ordered by
`marked_at` descending, and format them. -/
def get_attendance_records (user_id : String) (course_name : Option String)
    (db : AttDB) : ToolDict :=
  match pyInt? user_id with
  | none =>
      { success := false,
        error := some s!"Invalid user_id format: {user_id}. Must be numeric.",
        records := [], user_id := some user_id }
  | some uid =>
      let selected :=
        if pyTruthyStr course_name then
          (db.rows.filter (fun r =>
            r.user_id == uid && r.course_name == course_name.getD "")).mergeSort
            (fun a b => b.marked_at ≤ a.marked_at)
        else
          (db.rows.filter (fun r => r.user_id == uid)).mergeSort
            (fun a b => b.marked_at ≤ a.marked_at)
      let records := selected.map (fun r =>
        FmtRecord.mk r.id r.course_name r.marked_at r.marked_at)
      { success := true, records := records, total_records := records.length,
        user_id := some user_id, course_filter := course_name }

/-! ## Career-insights tool

Source: `app/tools/career_tools.py` `get_career_insights` (lines 7-119), an
ordinary synchronous function.  The Tavily client is an oracle in
`CareerEnv`. -/

/-- One entry of a Tavily `results` list. -/
structure TavilyResult where
  title : String
  content : String
  url : String
deriving DecidableEq

/-- Environment of the career tool: the `TAVILY_API_KEY` variable and the
Tavily search call.  `search q = .error e` models the client raising an
exception; `.ok rs` models a response whose `results` list is `rs` (a falsy
or absent response is the empty list). -/
structure CareerEnv where
  apiKey : Option String
  search : String → Except String (List TavilyResult)

/-- Python string slice `s[:n]` by characters. -/
def pySlice (s : String) (n : Nat) : String := ⟨s.data.take n⟩

/-- Source: `career_tools.py` `get_career_insights`.  The `mock_data` key of
the no-key dictionary is omitted (never read downstream). -/
def get_career_insights (field : String) (env : CareerEnv) : ToolDict :=
  match env.apiKey with
  | none =>
      { success := false, error := some "TAVILY_API_KEY not configured",
        query := some field,
        message := some "Tavily API key is required. Please add TAVILY_API_KEY to your .env file." }
  | some _ =>
      let search_query :=
        s!"latest career insights job market trends salary opportunities for {field}"
      match env.search search_query with
      | .error e =>
          { success := false, error := some e, query := some field,
            message := some s!"Error searching career insights: {e}" }
      | .ok results =>
          if results.isEmpty then
            { success := false, error := some "No search results returned",
              query := some field,
              message := some s!"No career insights found for: {field}" }
          else
            let top := (results.take 3).enum
            let fromSearch := top.map (fun p =>
              InsightItem.mk p.2.title
                (if p.2.content.data.length > 200 then
                   pySlice p.2.content 200 ++ "..."
                 else p.2.content)
                p.2.url (3 - (p.1 : Int)))
            let field_lower := pyLower field
            let extra :=
              if pyIn "software" field_lower || pyIn "developer" field_lower then
                [InsightItem.mk "Essential Skills"
                  "Strong programming skills in Python, JavaScript, and cloud platforms. Experience with version control and agile methodologies."
                  "industry_standard" 10]
              else if pyIn "data" field_lower || pyIn "ai" field_lower then
                [InsightItem.mk "Market Demand"
                  "High demand for AI/ML professionals. Companies seeking expertise in machine learning, data analysis, and cloud deployment."
                  "market_analysis" 10]
              else []
            { success := true, query := some field,
              insights := some ⟨field, search_query, results.length,
                fromSearch ++ extra⟩,
              message := some s!"Found career insights for: {field}" }

/-! ## Field-extraction helpers

Source: `enhanced_llm_wrapper_supabase.py` `extract_career_field`
(lines 140-160) and `extract_course_name` (lines 162-186). -/

/-- The fixed list of career fields scanned by `extract_career_field`. -/
def career_fields : List String :=
  ["computer science", "software engineering", "data science",
   "machine learning", "artificial intelligence", "web development",
   "mobile development", "devops", "cybersecurity", "blockchain",
   "cloud computing", "it", "programming", "engineering", "medicine", "law",
   "finance", "marketing", "design", "business", "accounting", "teaching",
   "research"]

/-- `extract_career_field(message)`: first listed field occurring in the
lowercased message, else `"technology"`. -/
def extract_career_field (message : String) : String :=
  let message_lower := pyLower message
  match career_fields.find? (fun f => pyIn f message_lower) with
  | some f => f
  | none => "technology"

/-- The fixed list of courses scanned by `extract_course_name`. -/
def known_courses : List String :=
  ["computer science", "mathematics", "physics", "chemistry", "biology",
   "english", "history", "geography", "economics", "psychology",
   "data structures", "algorithms", "database", "web development",
   "machine learning", "artificial intelligence"]

/-- The stop-word list of `extract_course_name`'s word fallback. -/
def course_stopwords : List String :=
  ["mark", "attendance", "present", "here", "class", "course"]

/-- `extract_course_name(message)`: first known course occurring in the
lowercased message; else the first word longer than three characters that is
not a stop word, title-cased; else `"General"`. -/
def extract_course_name (message : String) : String :=
  let message_lower := pyLower message
  match known_courses.find? (fun c => pyIn c message_lower) with
  | some c => c
  | none =>
      match (pySplitWs message_lower).find? (fun w =>
          w.data.length > 3 && !course_stopwords.contains w) with
      | some w => pyTitle w
      | none => "General"

/-! ## Tool execution

Source: `enhanced_llm_wrapper_supabase.py` `execute_tool` (lines 59-138).
The three asynchronous tools that only wrap external HTTP APIs
(`get_study_material`, `get_unread_emails`, `draft_email`) are environment
oracles; an oracle returning `.error e` models the call raising an exception
`e`. -/

/-- Environment of `execute_tool`: the career-tool environment, the three
asynchronous external tools, and the two regular-expression searches of
`extract_email_details` (`emailTo` is the first email-address match in the
message, `emailSubject` the text after a `subject:` marker in the lowercased
message). -/
structure ToolEnv where
  career : CareerEnv
  get_study_material : String → Option String → Except String ToolDict
  get_unread_emails : String → Nat → Except String ToolDict
  draft_email : String → String → String → String → Except String ToolDict
  emailTo : String → Option String
  emailSubject : String → Option String

/-- Python `await f(...)` applied to the outcome of the call `f(...)`.  When
`f` is declared `async def`, awaiting the returned coroutine yields the
call's own outcome.  When `f` is an ordinary `def` returning a dictionary,
the call itself completes and `await` then raises `TypeError` on the returned
dictionary (message transliterated without punctuation marks). -/
def pyAwait (isAsync : Bool) (callOutcome : Except String ToolDict) :
    Except String ToolDict :=
  if isAsync then callOutcome
  else
    match callOutcome with
    | .ok _ => .error "object dict cannot be used in await expression"
    | .error e => .error e

/-- The error envelope built by `execute_tool`'s `except` clause
(lines 132-138). -/
def errEnvelope (tool_name e : String) : ToolDict :=
  { success := false, error := some e,
    message := some s!"Error executing {tool_name}: {e}" }

/-- The envelope for an unknown tool name (lines 124-130). -/
def unknownToolEnvelope (tool_name : String) : ToolDict :=
  { success := false, error := some s!"Unknown tool: {tool_name}",
    message := some s!"Tool {tool_name} is not available" }

/-- The `try/except` of `execute_tool`: an exception from the awaited call
becomes the error envelope; a returned dictionary passes through. -/
def runExceptEnvelope (tool_name : String) (r : Except String ToolDict)
    (db : AttDB) : ToolDict × AttDB :=
  match r with
  | .ok d => (d, db)
  | .error e => (errEnvelope tool_name e, db)

/-- Source: `execute_tool` (lines 59-138).  Dispatch on the tool name with
per-tool guards, awaiting each tool function's call; the attendance tools
and the career tool are ordinary synchronous functions (`pyAwait false`),
the study and email tools are coroutine functions (`pyAwait true`).
Synchronous calls run (including their database effect) before the failing
`await`; the returned database reflects that. -/
def execute_tool (tool_name : String) (tool_args : ToolArgs)
    (google_access_token : Option String) (user_id : Option Int)
    (google_id : Option String) (env : ToolEnv) (db : AttDB) :
    ToolDict × AttDB :=
  if tool_name = "get_study_material" then
    runExceptEnvelope tool_name
      (pyAwait true (env.get_study_material (tool_args.query.getD "") google_id))
      db
  else if tool_name = "get_career_insights" then
    runExceptEnvelope tool_name
      (pyAwait false (.ok (get_career_insights (tool_args.field.getD "") env.career)))
      db
  else if tool_name = "mark_attendance" then
    if !pyTruthyInt user_id then
      ({ success := false,
         error := some "User ID is required for attendance marking",
         message := some "Please ensure you are logged in to mark attendance" },
       db)
    else
      let call := mark_attendance (tool_args.course_name.getD "")
        (toString (user_id.getD 0)) db
      runExceptEnvelope tool_name (pyAwait false (.ok call.1)) call.2
  else if tool_name = "get_attendance_records" then
    if !pyTruthyInt user_id then
      ({ success := false,
         error := some "User ID is required for attendance records",
         message := some "Please ensure you are logged in to view attendance" },
       db)
    else
      runExceptEnvelope tool_name
        (pyAwait false (.ok (get_attendance_records
          (toString (user_id.getD 0)) tool_args.course_name db)))
        db
  else if tool_name = "get_unread_emails" then
    if !pyTruthyStr google_id then
      ({ success := false, error := some "User authentication required",
         message := some "Please log in to access email functionality." }, db)
    else
      runExceptEnvelope tool_name
        (pyAwait true (env.get_unread_emails (google_id.getD "")
          (tool_args.max_results.getD 10)))
        db
  else if tool_name = "draft_email" then
    if !pyTruthyStr google_access_token then
      ({ success := false, error := some "Google access token is required",
         message := some "To draft an email, I will need your Google OAuth access token. Could you please ensure that I have the necessary permissions to access your Gmail account?" },
       db)
    else
      runExceptEnvelope tool_name
        (pyAwait true (env.draft_email (google_access_token.getD "")
          (tool_args.toAddr.getD "") (tool_args.subject.getD "")
          (tool_args.body.getD "")))
        db
  else (unknownToolEnvelope tool_name, db)

/-! ## Result formatting

Source: `enhanced_llm_wrapper_supabase.py` `process_tool_results`
(lines 216-339) and `extract_email_details` (lines 188-214). -/

/-- A tool result as stored in the `tool_results` list: normally a
dictionary, exceptionally a bare string (the `isinstance(result, str)`
branch). -/
inductive ToolRet where
  | str (s : String)
  | dict (d : ToolDict)
deriving DecidableEq

/-- `extract_email_details(message)`: recipient and subject from the regex
oracles, full message as body (defaults are empty strings). -/
def extract_email_details (env : ToolEnv) (message : String) : ToolArgs :=
  { toAddr := some ((env.emailTo message).getD ""),
    subject := some ((env.emailSubject (pyLower message)).getD ""),
    body := some message }

/-- The synthesis prompt of the study branch (lines 254-259),
transliterated. -/
def synthesisPrompt (original_message context : String) : String :=
  "Based on the following information from the uploaded study materials, please provide a comprehensive and well-structured answer to this question: "
    ++ original_message ++ "\n\nStudy Materials Context:\n" ++ context
    ++ "\n\nPlease synthesize this information into a clear, helpful answer."

/-- Deterministic rendering of the nested career-insights dictionary,
standing in for Python's `str()` of a dict in the f-string of line 291.  No
property proved below depends on its shape. -/
def careerInsightsRepr (c : CareerInsights) : String :=
  "field: " ++ c.field ++ ", query: " ++ c.query ++ ", insights: "
    ++ String.join (c.insights.map (fun i =>
        i.title ++ " - " ++ i.summary ++ " [" ++ i.source ++ "]; "))

/-- One line of the attendance-records listing (line 310). -/
def attendanceRecordLine (r : FmtRecord) : String :=
  let course := r.course_name
  let date := toString r.marked_at
  s!"• {course} - {date}\n"

/-- One line of the unread-emails listing (lines 320-324); `p.1` is the
1-based index. -/
def emailLine (p : Nat × EmailRec) : String :=
  let i := p.1
  let subject := p.2.subject
  let sender := p.2.sender
  let snippet := pySlice p.2.snippet 100
  s!"{i}. **{subject}** from {sender}\n   {snippet}...\n\n"

/-- Source: `process_tool_results` (lines 216-339).  `synth` is the LLM
synthesis call of the study branch (`.error` models the call raising, which
the source catches with a fallback to the raw context).  Only the first
element of `tool_results` is ever read, matching line 224. -/
def process_tool_results (synth : String → Except String String)
    (tool_results : List (String × ToolRet)) (original_message : String) :
    String :=
  match tool_results with
  | [] => "I apologize, but I could not process your request. Please try again."
  | (tool_name, result) :: _ =>
    match result with
    | .str s => s!"I encountered an error while processing your request: {s}"
    | .dict d =>
      if !d.success then
        let error_msg := d.error.getD "Unknown error"
        s!"I encountered an error while processing your request: {error_msg}"
      else if tool_name = "get_study_material" then
        let context := d.context.getD ""
        if pyIn "No relevant study materials found" context then
          s!"I searched through your uploaded study materials but could not find relevant information for {original_message}. Please try rephrasing your question or upload relevant documents that contain information about this topic."
        else if !d.success then
          -- dead re-check of line 247, kept from the source
          let error_msg := d.error.getD "Unknown error"
          s!"I encountered an error while searching study materials: {error_msg}"
        else
          match synth (synthesisPrompt original_message context) with
          | .ok answer =>
              answer
                ++ "\n\n*This answer is based on information from your uploaded study materials. If you need more details or have additional questions, feel free to ask!*"
          | .error _ =>
              s!"Based on your study materials, here is what I found:\n\n{context}\n\n"
                ++ "If this does not fully answer your question, please provide more details or upload additional study materials."
      else if tool_name = "get_career_insights" then
        match d.insights with
        | none =>
            let field := extract_career_field original_message
            s!"I could not find specific career insights for {field}. Please try a different career field or provide more details about your interests."
        | some ins =>
            "Here are some career insights:\n\n" ++ careerInsightsRepr ins
      else if tool_name = "mark_attendance" then
        let msg := d.message.getD ""
        if pyIn "success" (pyLower msg) then
          let course_name := extract_course_name original_message
          s!"✅ Attendance marked successfully for {course_name}!"
        else s!"There was an issue marking your attendance: {msg}"
      else if tool_name = "get_attendance_records" then
        if d.records.isEmpty then
          "I could not find any attendance records for you. Make sure you have marked attendance for some classes first."
        else
          let listing := "Here are your attendance records:\n\n"
            ++ String.join ((d.records.take 10).map attendanceRecordLine)
          if d.records.length > 10 then
            let n := d.records.length
            listing ++ s!"\n(Showing 10 most recent out of {n} records)"
          else listing
      else if tool_name = "get_unread_emails" then
        if d.emails.isEmpty then "You have no unread emails in your inbox."
        else
          let n := d.emails.length
          let listing := s!"You have {n} unread email(s):\n\n"
            ++ String.join (((d.emails.take 5).enum.map
                (fun p => emailLine (p.1 + 1, p.2))))
          if d.emails.length > 5 then
            listing ++ s!"(Showing 5 most recent out of {n} emails)"
          else listing
      else if tool_name = "draft_email" then
        match d.draft_id with
        | some _ =>
            let draft_url := d.draft_url.getD "None"
            s!"✅ Email draft created successfully!\n\nYou can review and send it here: {draft_url}"
        | none =>
            let msg := d.message.getD "Unknown error"
            s!"There was an issue creating your email draft: {msg}"
      else
        s!"Tool executed successfully, but I do not know how to format the response for {tool_name}."

/-! ## Forced tool dispatch

Source: `enhanced_llm_wrapper_supabase.py` `get_llm_response_with_supabase`,
intent-dispatch slice (lines 402-513): detect the intent, invoke exactly one
predetermined tool through `execute_tool`, and record a tool name alongside
the result for formatting.  The function returns the log of executed tool
calls (name and arguments, in order), the `tool_results` list handed to
`process_tool_results`, and the resulting attendance table. -/

/-- The marking-verb list of the attendance branch (line 442). -/
def markingVerbs : List String := ["mark", "present", "here", "attending"]

/-- The drafting-verb list of the email branch (lines 471 and 493). -/
def draftingVerbs : List String := ["draft", "write", "compose", "send"]

/-- Intent-dispatch slice of `get_llm_response_with_supabase`. -/
def forced_dispatch (message : String) (google_access_token : Option String)
    (user_id : Option Int) (google_id : Option String) (env : ToolEnv)
    (db : AttDB) :
    List (String × ToolArgs) × List (String × ToolRet) × AttDB :=
  let intent := detect_intent message
  if intent = "study" then
    let args : ToolArgs := { query := some message }
    let r := execute_tool "get_study_material" args google_access_token
      user_id google_id env db
    ([("get_study_material", args)], [("get_study_material", .dict r.1)], r.2)
  else if intent = "career" then
    let args : ToolArgs := { field := some (extract_career_field message) }
    let r := execute_tool "get_career_insights" args google_access_token
      user_id google_id env db
    ([("get_career_insights", args)], [("get_career_insights", .dict r.1)], r.2)
  else if intent = "attendance" then
    let args : ToolArgs := { course_name := some (extract_course_name message) }
    let r :=
      if markingVerbs.any (fun w => pyIn w (pyLower message)) then
        execute_tool "mark_attendance" args google_access_token user_id
          google_id env db
      else
        execute_tool "get_attendance_records" args google_access_token user_id
          google_id env db
    let executed :=
      if markingVerbs.any (fun w => pyIn w (pyLower message)) then
        "mark_attendance"
      else "get_attendance_records"
    let recorded :=
      if pyIn "mark" (pyLower message) then "mark_attendance"
      else "get_attendance_records"
    ([(executed, args)], [(recorded, .dict r.1)], r.2)
  else if intent = "email" then
    if draftingVerbs.any (fun w => pyIn w (pyLower message)) then
      let args := extract_email_details env message
      let r := execute_tool "draft_email" args google_access_token user_id
        google_id env db
      ([("draft_email", args)],
       [((if draftingVerbs.any (fun w => pyIn w (pyLower message)) then
            "draft_email" else "get_unread_emails"), .dict r.1)], r.2)
    else
      let args : ToolArgs := { max_results := some 10 }
      let r := execute_tool "get_unread_emails" args google_access_token
        user_id google_id env db
      ([("get_unread_emails", args)],
       [((if draftingVerbs.any (fun w => pyIn w (pyLower message)) then
            "draft_email" else "get_unread_emails"), .dict r.1)], r.2)
  else
    let args : ToolArgs := { query := some message }
    let r := execute_tool "get_study_material" args google_access_token
      user_id google_id env db
    ([("get_study_material", args)], [("get_study_material", .dict r.1)], r.2)

/-! ## Sample environment for concrete evaluations -/

/-- A concrete career environment with no API key. -/
def sampleCareerEnv : CareerEnv := ⟨none, fun _ => .ok []⟩

/-- A concrete tool environment whose external calls all raise. -/
def sampleToolEnv : ToolEnv :=
  { career := sampleCareerEnv,
    get_study_material := fun _ _ => .error "service unavailable",
    get_unread_emails := fun _ _ => .error "service unavailable",
    draft_email := fun _ _ _ _ => .error "service unavailable",
    emailTo := fun _ => none,
    emailSubject := fun _ => none }

/-- A concrete empty attendance table. -/
def sampleAttDB : AttDB := ⟨[], 1, 100⟩

/-! ## Claims about dispatch and tool execution -/

/-- C2 (counterexample): for the message "present" — classified
`attendance` — the orchestrator executes `mark_attendance` (the message
contains the marking verb "present") but records the tool name
`get_attendance_records` for formatting (the recording check at line 465
only looks for the verb "mark"), so the recorded name differs from the
executed tool. -/
theorem C2_recorded_tool_name_counterexample :
    detect_intent "present" = "attendance"
    ∧ ((forced_dispatch "present" none (some 7) (some "g") sampleToolEnv
        sampleAttDB).1.map Prod.fst) = ["mark_attendance"]
    ∧ ((forced_dispatch "present" none (some 7) (some "g") sampleToolEnv
        sampleAttDB).2.1.map Prod.fst) = ["get_attendance_records"] := by
  decide

/-- C2 (amended): for every chat message with attendance intent the
orchestrator invokes exactly one predetermined tool — `mark_attendance` when
the lowercased message contains one of the marking verbs "mark", "present",
"here", "attending", and `get_attendance_records` otherwise — and the single
entry of `tool_results` carries that executed tool's result; but the tool
name recorded for formatting is `mark_attendance` exactly when the message
contains "mark", so for a message containing "present", "here" or
"attending" but not "mark" the result of `mark_attendance` is formatted
under the name `get_attendance_records`. -/
theorem C2_attendance_dispatch (m : String) (tok : Option String)
    (uid : Option Int) (gid : Option String) (env : ToolEnv) (db : AttDB)
    (h : detect_intent m = "attendance") :
    forced_dispatch m tok uid gid env db =
      ([((if markingVerbs.any (fun w => pyIn w (pyLower m)) then
            "mark_attendance" else "get_attendance_records"),
         { course_name := some (extract_course_name m) })],
       [((if pyIn "mark" (pyLower m) then "mark_attendance"
          else "get_attendance_records"),
         ToolRet.dict (execute_tool
           (if markingVerbs.any (fun w => pyIn w (pyLower m)) then
              "mark_attendance" else "get_attendance_records")
           { course_name := some (extract_course_name m) } tok uid gid env
           db).1)],
       (execute_tool
         (if markingVerbs.any (fun w => pyIn w (pyLower m)) then
            "mark_attendance" else "get_attendance_records")
         { course_name := some (extract_course_name m) } tok uid gid env
         db).2) := by
  cases hv : markingVerbs.any (fun w => pyIn w (pyLower m)) <;>
    simp [forced_dispatch, h, hv]

/-- Witness for C2 at the concrete message "present": `mark_attendance` is
executed, `get_attendance_records` is recorded. -/
theorem C2_attendance_dispatch_witness :
    forced_dispatch "present" none (some 7) (some "g") sampleToolEnv
        sampleAttDB =
      ([("mark_attendance", { course_name := some "General" })],
       [("get_attendance_records",
         ToolRet.dict (execute_tool "mark_attendance"
           { course_name := some "General" } none (some 7) (some "g")
           sampleToolEnv sampleAttDB).1)],
       (execute_tool "mark_attendance" { course_name := some "General" } none
         (some 7) (some "g") sampleToolEnv sampleAttDB).2) := by
  rw [C2_attendance_dispatch "present" none (some 7) (some "g") sampleToolEnv
    sampleAttDB (by decide)]
  decide

/-- C10: through the chat orchestrator's `execute_tool`, the three
synchronous tool functions `mark_attendance`, `get_attendance_records` and
`get_career_insights` always produce a failure envelope, for every argument
dictionary, caller identity and environment: they are ordinary functions
returning a dictionary, `execute_tool` awaits that dictionary, and the
resulting `TypeError` is caught and converted into `{success: false}` (when
the per-tool guard does not already fail the call). -/
theorem C10_awaited_sync_tools_never_succeed (args : ToolArgs)
    (tok : Option String) (uid : Option Int) (gid : Option String)
    (env : ToolEnv) (db : AttDB) :
    (execute_tool "mark_attendance" args tok uid gid env db).1.success = false
    ∧ (execute_tool "get_attendance_records" args tok uid gid env
        db).1.success = false
    ∧ (execute_tool "get_career_insights" args tok uid gid env
        db).1.success = false := by
  refine ⟨?_, ?_, ?_⟩ <;>
    cases hu : pyTruthyInt uid <;>
      simp [execute_tool, hu, pyAwait, runExceptEnvelope, errEnvelope]

/-- C3: failures never escape the tool boundary, and error envelopes surface
their message.  First three conjuncts: for each asynchronous tool, when the
underlying call raises `e`, `execute_tool` catches it and returns the
`{success: false, error: e}` envelope (the synchronous tools are covered by
the same `except` clause, as the `TypeError` conversion shows elsewhere).
Last conjunct: for every tool result dictionary with `success = false` and
error string `E`, the user-facing reply produced by `process_tool_results`
contains `E` as a substring. -/
theorem C3_error_envelope_and_reply :
    (∀ (args : ToolArgs) (tok : Option String) (uid : Option Int)
       (gid : Option String) (env : ToolEnv) (db : AttDB) (e : String),
       env.get_study_material (args.query.getD "") gid = .error e →
       (execute_tool "get_study_material" args tok uid gid env db).1 =
         errEnvelope "get_study_material" e)
    ∧ (∀ (args : ToolArgs) (tok : Option String) (uid : Option Int)
         (gid : Option String) (env : ToolEnv) (db : AttDB) (e : String),
         pyTruthyStr gid = true →
         env.get_unread_emails (gid.getD "") (args.max_results.getD 10) =
           .error e →
         (execute_tool "get_unread_emails" args tok uid gid env db).1 =
           errEnvelope "get_unread_emails" e)
    ∧ (∀ (args : ToolArgs) (tok : Option String) (uid : Option Int)
         (gid : Option String) (env : ToolEnv) (db : AttDB) (e : String),
         pyTruthyStr tok = true →
         env.draft_email (tok.getD "") (args.toAddr.getD "")
           (args.subject.getD "") (args.body.getD "") = .error e →
         (execute_tool "draft_email" args tok uid gid env db).1 =
           errEnvelope "draft_email" e)
    ∧ (∀ (synth : String → Except String String)
         (rest : List (String × ToolRet)) (name m E : String) (d : ToolDict),
         d.success = false → d.error = some E →
         E.data <:+:
           (process_tool_results synth ((name, ToolRet.dict d) :: rest)
             m).data) := by
  refine ⟨?_, ?_, ?_, ?_⟩
  · intro args tok uid gid env db e h
    simp [execute_tool, pyAwait, runExceptEnvelope, h]
  · intro args tok uid gid env db e hg h
    simp [execute_tool, hg, pyAwait, runExceptEnvelope, h]
  · intro args tok uid gid env db e ht h
    simp [execute_tool, ht, pyAwait, runExceptEnvelope, h]
  · intro synth rest name m E d hs he
    simp only [process_tool_results, hs, he, Bool.not_false, if_true]
    show E.data <:+:
      ("I encountered an error while processing your request: " ++ E ++
        "").data
    rw [String.append_empty, String.data_append]
    exact List.IsSuffix.isInfix (List.suffix_append _ _)

/-- Witness for C3 at a concrete raising study call and a concrete failure
envelope with error string "boom". -/
theorem C3_error_envelope_and_reply_witness :
    (execute_tool "get_study_material" {} none none none sampleToolEnv
        sampleAttDB).1 =
      errEnvelope "get_study_material" "service unavailable"
    ∧ ("boom" : String).data <:+:
        (process_tool_results (fun _ => .error "llm down")
          [("mark_attendance",
            ToolRet.dict { success := false, error := some "boom" })]
          "hi").data :=
  ⟨C3_error_envelope_and_reply.1 {} none none none sampleToolEnv sampleAttDB
      "service unavailable" rfl,
   C3_error_envelope_and_reply.2.2.2 (fun _ => .error "llm down") []
      "mark_attendance" "hi" "boom"
      { success := false, error := some "boom" } rfl rfl⟩

/-- C7: marking attendance and then reading the records returns the marked
course.  If `mark_attendance(course, user_id)` reports success, then
`get_attendance_records(user_id)` on the resulting table contains a record
whose `course_name` equals `course` and whose `marked_at` timestamp is at
least the time of the `mark_attendance` call. -/
theorem C7_mark_then_get_records (db : AttDB) (course uid : String)
    (h : (mark_attendance course uid db).1.success = true) :
    ∃ r ∈ (get_attendance_records uid none
        ((mark_attendance course uid db).2)).records,
      r.course_name = course ∧ db.now ≤ r.marked_at := by
  cases hp : pyInt? uid with
  | none => rw [mark_attendance] at h; simp [hp] at h
  | some n =>
    refine ⟨⟨db.nextId, course, db.now, db.now⟩, ?_, rfl, le_refl _⟩
    simp only [mark_attendance, hp, get_attendance_records,
      db_mark_attendance, attInsert, pyTruthyStr, Bool.false_eq_true,
      if_false]
    refine List.mem_map.mpr ⟨⟨db.nextId, n, course, db.now⟩, ?_, rfl⟩
    rw [List.mem_mergeSort]
    refine List.mem_filter.mpr ⟨?_, by simp⟩
    exact List.mem_append_right _ (List.mem_singleton.mpr rfl)

/-- Witness for C7 at a concrete table, course and user id. -/
theorem C7_mark_then_get_records_witness :
    ∃ r ∈ (get_attendance_records "7" none
        ((mark_attendance "CS101" "7" sampleAttDB).2)).records,
      r.course_name = "CS101" ∧ sampleAttDB.now ≤ r.marked_at :=
  C7_mark_then_get_records sampleAttDB "CS101" "7" (by decide)

/-! ## Conversations: ownership check and deletion

Source: `app/core/db_client.py` `delete_conversation` (lines 210-227) and
`app/api/v1/endpoints/conversations.py` `delete_conversation_endpoint`
(lines 80-107). -/

/-- One row of the `users` table (fields the deletion path reads). -/
structure DbUser where
  id : Int
  google_id : String
deriving DecidableEq

/-- One row of the `conversations` table. -/
structure Conversation where
  id : String
  user_id : Int
  title : String
deriving DecidableEq

/-- One row of the `messages` table (fields the deletion path reads);
`conversation_id` is nullable. -/
structure DbMessage where
  conversation_id : Option String
  user_id : Int
  role : String
  content : String
deriving DecidableEq

/-- The relational state the conversation endpoints act on. -/
structure ConvDB where
  users : List DbUser
  conversations : List Conversation
  messages : List DbMessage
deriving DecidableEq

/-- The ownership verification query of `delete_conversation`: a row exists
joining the conversation to a user with the caller's `google_id`. -/
def conversationOwned (db : ConvDB) (conversation_id google_id : String) :
    Bool :=
  db.conversations.any (fun c => c.id == conversation_id &&
    db.users.any (fun u => u.id == c.user_id && u.google_id == google_id))

/-- `delete_conversation(conversation_id, google_id)`: verify ownership,
raising `ValueError("Conversation not found or access denied")` when the
verification query returns no row; only then run the two DELETE statements
(messages first, then the conversation row). -/
def db_delete_conversation (db : ConvDB) (conversation_id google_id : String) :
    Except String ConvDB :=
  if !conversationOwned db conversation_id google_id then
    .error "Conversation not found or access denied"
  else
    .ok { db with
      messages := db.messages.filter
        (fun m => m.conversation_id != some conversation_id),
      conversations := db.conversations.filter
        (fun c => c.id != conversation_id) }

/-- An HTTP error response (status code and detail string). -/
structure HttpError where
  status : Nat
  detail : String
deriving DecidableEq

deriving instance DecidableEq for Except

/-- `delete_conversation_endpoint`: translate the database-layer `ValueError`
into an HTTP error by substring tests on the lowercased message — `"not
found"` first (404), then `"access denied"` (403), else 500.  The
empty-google-id guard raises an `HTTPException` that the endpoint's own
catch-all `except Exception` re-wraps as a 500 (there is no `except
HTTPException: raise` in this handler), with `str(exc)` rendered as
`"400: Google ID not found"`. -/
def delete_conversation_endpoint (db : ConvDB)
    (conversation_id google_id : String) :
    Except HttpError String × ConvDB :=
  if google_id.isEmpty then
    (.error ⟨500, "Failed to delete conversation: 400: Google ID not found"⟩,
     db)
  else
    match db_delete_conversation db conversation_id google_id with
    | .ok db2 => (.ok "Conversation deleted successfully", db2)
    | .error e =>
        if pyIn "not found" (pyLower e) then
          (.error ⟨404, "Conversation not found"⟩, db)
        else if pyIn "access denied" (pyLower e) then
          (.error ⟨403, "Access denied"⟩, db)
        else (.error ⟨500, e⟩, db)

/-- A concrete database: user 1 owns conversation "c1"; user 2
("attacker-gid") does not. -/
def sampleConvDB : ConvDB :=
  { users := [⟨1, "owner-gid"⟩, ⟨2, "attacker-gid"⟩],
    conversations := [⟨"c1", 1, "Chat"⟩],
    messages := [⟨some "c1", 1, "user", "hi"⟩] }

/-- C4 (counterexample): deleting a conversation not owned by the caller is
mapped by the endpoint to a 404 not-found error, not to the access-denied
(403) error the endpoint reserves for ownership failures: the database error
message contains both "not found" and "access denied", and the endpoint
tests "not found" first. -/
theorem C4_unowned_delete_maps_to_404_counterexample :
    conversationOwned sampleConvDB "c1" "attacker-gid" = false
    ∧ (delete_conversation_endpoint sampleConvDB "c1" "attacker-gid").1 =
        .error ⟨404, "Conversation not found"⟩
    ∧ (delete_conversation_endpoint sampleConvDB "c1" "attacker-gid").1 ≠
        .error ⟨403, "Access denied"⟩ := by
  decide

/-- C4 (amended): for every conversation not owned by the caller,
`delete_conversation` raises before either DELETE statement and no message
or conversation row is deleted (the state is returned unchanged); the
endpoint, however, maps this failure to a 404 not-found HTTP error rather
than an access-denied one, because the raised message contains "not found"
and that branch is tested before the "access denied" branch. -/
theorem C4_unowned_delete_no_rows_deleted (db : ConvDB) (cid gid : String)
    (hg : gid ≠ "") (h : conversationOwned db cid gid = false) :
    db_delete_conversation db cid gid =
      .error "Conversation not found or access denied"
    ∧ (delete_conversation_endpoint db cid gid).1 =
        .error ⟨404, "Conversation not found"⟩
    ∧ (delete_conversation_endpoint db cid gid).2 = db := by
  have h1 : db_delete_conversation db cid gid =
      .error "Conversation not found or access denied" := by
    simp [db_delete_conversation, h]
  have hpy :
      pyIn "not found" (pyLower "Conversation not found or access denied") =
        true := by decide
  have hge : gid.isEmpty = false := by
    cases hh : gid.isEmpty
    · rfl
    · exact absurd ((String.isEmpty_iff gid).mp hh) hg
  refine ⟨h1, ?_, ?_⟩ <;>
    simp [delete_conversation_endpoint, hge, h1, hpy]

/-- Witness for C4 at the concrete database: the attacker's delete request
returns 404 and leaves the database unchanged. -/
theorem C4_unowned_delete_no_rows_deleted_witness :
    (delete_conversation_endpoint sampleConvDB "c1" "attacker-gid").1 =
      .error ⟨404, "Conversation not found"⟩
    ∧ (delete_conversation_endpoint sampleConvDB "c1" "attacker-gid").2 =
        sampleConvDB :=
  ⟨(C4_unowned_delete_no_rows_deleted sampleConvDB "c1" "attacker-gid"
      (by decide) (by decide)).2.1,
   (C4_unowned_delete_no_rows_deleted sampleConvDB "c1" "attacker-gid"
      (by decide) (by decide)).2.2⟩

/-! ## Supabase JWT verification

Source: `app/api/v1/endpoints/auth/google.py` `verify_supabase_token`
(lines 10-52).  The token is decoded with
`jwt.decode(token, options={"verify_signature": False})`: with signature
verification off, PyJWT also skips every registered-claim check, so the only
decode failure is a malformed token.  The decoder is an oracle; each decoded
payload carries a `sigValid` flag recording whether the token's signature
would actually verify, which no code path consults. -/

/-- A decoded JWT payload: the two claims the code reads plus the
signature-validity flag the code never reads. -/
structure JwtPayload where
  sub : Option String
  email : Option String
  sigValid : Bool
deriving DecidableEq

/-- The user dictionary returned on success. -/
structure AuthedUser where
  user_id : String
  email : String
  google_id : String
deriving DecidableEq

/-- Token extraction: `authorization.replace("Bearer ", "")` deletes every
occurrence of the prefix. -/
def extractBearerToken (auth : String) : String := pyDeleteAll auth "Bearer "

/-- Source: `verify_supabase_token`.  The 401 on a falsy `sub`/`email` is an
`HTTPException` raised inside the `try` block and re-wrapped by the
function's own catch-all `except Exception` (still a 401; `str(exc)` is
rendered inside the new detail). -/
def verify_supabase_token (decodeJwt : String → Except String JwtPayload)
    (authorization : Option String) : Except HttpError AuthedUser :=
  match authorization with
  | none => .error ⟨401, "Authorization header missing"⟩
  | some auth =>
    if !pyStartsWith auth "Bearer " then
      .error ⟨401, "Invalid authorization format"⟩
    else
      match decodeJwt (extractBearerToken auth) with
      | .error e => .error ⟨401, s!"Invalid token: {e}"⟩
      | .ok payload =>
          if !pyTruthyStr payload.sub || !pyTruthyStr payload.email then
            .error ⟨401,
              "Token verification failed: 401: Invalid JWT token: missing user_id or email"⟩
          else
            .ok ⟨payload.sub.getD "", payload.email.getD "",
                 payload.sub.getD ""⟩

/-- C5: `verify_supabase_token` performs no signature verification — its
result is invariant under overwriting the signature-validity of every
decoded payload — and it succeeds exactly on Bearer headers whose token
decodes to a payload with non-empty `sub` and `email`, returning
`{user_id: sub, email, google_id: sub}`; every failure (missing header,
non-Bearer header, undecodable token, falsy `sub` or `email`) is a 401. -/
theorem C5_jwt_no_signature_verification :
    (∀ (d : String → Except String JwtPayload) (b : Bool)
       (auth : Option String),
       verify_supabase_token
         (fun t => (d t).map (fun p => { p with sigValid := b })) auth =
         verify_supabase_token d auth)
    ∧ (∀ (d : String → Except String JwtPayload) (a : String)
         (p : JwtPayload),
         pyStartsWith a "Bearer " = true →
         d (extractBearerToken a) = .ok p →
         pyTruthyStr p.sub = true → pyTruthyStr p.email = true →
         verify_supabase_token d (some a) =
           .ok ⟨p.sub.getD "", p.email.getD "", p.sub.getD ""⟩)
    ∧ (∀ (d : String → Except String JwtPayload) (auth : Option String)
         (err : HttpError),
         verify_supabase_token d auth = .error err → err.status = 401)
    ∧ (∀ d : String → Except String JwtPayload,
         verify_supabase_token d none =
           .error ⟨401, "Authorization header missing"⟩)
    ∧ (∀ (d : String → Except String JwtPayload) (a : String),
         pyStartsWith a "Bearer " = false →
         verify_supabase_token d (some a) =
           .error ⟨401, "Invalid authorization format"⟩)
    ∧ (∀ (d : String → Except String JwtPayload) (a e : String),
         pyStartsWith a "Bearer " = true →
         d (extractBearerToken a) = .error e →
         verify_supabase_token d (some a) =
           .error ⟨401, s!"Invalid token: {e}"⟩)
    ∧ (∀ (d : String → Except String JwtPayload) (a : String)
         (p : JwtPayload),
         pyStartsWith a "Bearer " = true →
         d (extractBearerToken a) = .ok p →
         (pyTruthyStr p.sub = false ∨ pyTruthyStr p.email = false) →
         verify_supabase_token d (some a) =
           .error ⟨401,
             "Token verification failed: 401: Invalid JWT token: missing user_id or email"⟩) := by
  refine ⟨?_, ?_, ?_, ?_, ?_, ?_, ?_⟩
  · intro d b auth
    cases auth with
    | none => rfl
    | some a =>
      simp only [verify_supabase_token]
      cases hb : pyStartsWith a "Bearer " with
      | false => simp
      | true =>
        simp only [Bool.not_true, if_false, Bool.false_eq_true]
        cases hd : d (extractBearerToken a) with
        | error e => simp [Except.map, hd]
        | ok p => simp [Except.map, hd]
  · intro d a p hb hd hs he
    simp [verify_supabase_token, hb, hd, hs, he]
  · intro d auth err h
    cases auth with
    | none => simp [verify_supabase_token] at h; simp [← h]
    | some a =>
      simp only [verify_supabase_token] at h
      cases hb : pyStartsWith a "Bearer " with
      | false => simp [hb] at h; simp [← h]
      | true =>
        simp only [hb, Bool.not_true, Bool.false_eq_true, if_false] at h
        cases hd : d (extractBearerToken a) with
        | error e => simp [hd] at h; simp [← h]
        | ok p =>
          simp only [hd] at h
          by_cases hsub : (!pyTruthyStr p.sub || !pyTruthyStr p.email) = true
          · simp [hsub] at h; simp [← h]
          · simp [hsub] at h
  · intro d; rfl
  · intro d a hb
    simp [verify_supabase_token, hb]
  · intro d a e hb hd
    simp [verify_supabase_token, hb, hd]
  · intro d a p hb hd hfalsy
    rcases hfalsy with hf | hf <;> simp [verify_supabase_token, hb, hd, hf]

/-- A concrete decoder: every token decodes to
`{sub: "user-1", email: "u@example.com"}` with an invalid signature. -/
def sampleDecoder : String → Except String JwtPayload :=
  fun _ => .ok ⟨some "user-1", some "u@example.com", false⟩

/-- Witness for C5 at a concrete header whose token's signature is invalid:
verification still succeeds with `{user_id: sub, email, google_id: sub}`. -/
theorem C5_jwt_no_signature_verification_witness :
    verify_supabase_token sampleDecoder (some "Bearer not-really-signed") =
      .ok ⟨"user-1", "u@example.com", "user-1"⟩ :=
  C5_jwt_no_signature_verification.2.1 sampleDecoder "Bearer not-really-signed"
    ⟨some "user-1", some "u@example.com", false⟩ (by decide) rfl (by decide)
    (by decide)

/-! ## Document upload

Source: `app/api/v1/endpoints/documents.py` `upload_document`
(lines 166-274).  External effects are recorded in an ordered trace; the
storage upload, text extraction, chunking and embedding services are
environment oracles. -/

/-- External effects of the upload pipeline, in the order they occur. -/
inductive UploadEffect where
  | storageUpload
  | embeddingCall
  | insertChunks
deriving DecidableEq

/-- The request-visible inputs of `upload_document`. -/
structure UploadRequest where
  content_type : String
  filename : String
  course_name : String
deriving DecidableEq

/-- Environment of `upload_document`: user lookup, storage outcome (an
`.error` models the upload call raising, in which case no file is recorded
as written), the extracted text per format, the OpenAI key, and the text
splitter. -/
structure UploadEnv where
  userFound : Bool
  storage : Except String Unit
  extractedPdf : String
  extractedDocx : String
  openaiKey : Bool
  chunksOf : String → List String

/-- The allowed MIME types (line 176). -/
def allowed_types : List String :=
  ["application/pdf",
   "application/vnd.openxmlformats-officedocument.wordprocessingml.document"]

/-- Split a character list at `.` separators. -/
def splitOnDot (acc : List Char) : List Char → List (List Char)
  | [] => [acc.reverse]
  | c :: t =>
      if c = '.' then acc.reverse :: splitOnDot [] t
      else splitOnDot (c :: acc) t

/-- Python `filename.split('.')[-1].lower()`. -/
def pyExtension (filename : String) : String :=
  pyLower ⟨((splitOnDot [] filename.data).getLast?).getD []⟩

/-- The 400 error for a disallowed content type (lines 178-181). -/
def uploadRejectError (ct : String) : HttpError :=
  ⟨400, s!"File type {ct} not allowed. Only PDF and DOCX files are supported."⟩

/-- The success body of `upload_document`. -/
structure UploadResponse where
  message : String
  chunks_created : Nat
  filename : String
  course_name : String
deriving DecidableEq

/-- Source: `upload_document`.  The content-type validation is the first
statement of the handler body; the storage upload, the extension dispatch,
the empty-text check, the key check, the per-chunk embedding calls and the
single bulk insert follow in that order. -/
def upload_document (req : UploadRequest) (env : UploadEnv) :
    List UploadEffect × Except HttpError UploadResponse :=
  if !allowed_types.contains req.content_type then
    ([], .error (uploadRejectError req.content_type))
  else if !env.userFound then
    ([], .error ⟨500, "Upload failed: user not found"⟩)
  else
    let file_extension := pyExtension req.filename
    match env.storage with
    | .error e => ([], .error ⟨500, s!"Storage upload failed: {e}"⟩)
    | .ok _ =>
      let full_text :=
        if file_extension = "pdf" then some env.extractedPdf
        else if file_extension = "docx" then some env.extractedDocx
        else none
      match full_text with
      | none => ([.storageUpload], .error ⟨400, "Unsupported file type"⟩)
      | some text =>
        if (pyStrip text).isEmpty then
          ([.storageUpload],
           .error ⟨400, "No text content could be extracted from the file"⟩)
        else if !env.openaiKey then
          ([.storageUpload], .error ⟨500, "OpenAI API key not configured"⟩)
        else
          let chunks := env.chunksOf text
          ([UploadEffect.storageUpload]
             ++ chunks.map (fun _ => UploadEffect.embeddingCall)
             ++ [UploadEffect.insertChunks],
           .ok ⟨"File processed and saved successfully", chunks.length,
                req.filename, req.course_name⟩)

/-- C6: an upload request whose declared file type is neither PDF nor DOCX
is rejected with a 400 error before any external effect: the effect trace is
empty — no file is written to storage, no embedding API call is made and no
document chunk is inserted. -/
theorem C6_non_pdf_docx_rejected_before_effects (req : UploadRequest)
    (env : UploadEnv) (h : allowed_types.contains req.content_type = false) :
    upload_document req env = ([], .error (uploadRejectError req.content_type)) := by
  simp only [upload_document, h, Bool.not_false, if_true]

/-- A concrete upload environment in which every external step would
succeed. -/
def sampleUploadEnv : UploadEnv :=
  { userFound := true, storage := .ok (), extractedPdf := "pdf text",
    extractedDocx := "docx text", openaiKey := true,
    chunksOf := fun t => [t] }

/-- Witness for C6 at a concrete `text/plain` upload: rejected with the 400
error and an empty effect trace even though every external step would have
succeeded. -/
theorem C6_non_pdf_docx_rejected_before_effects_witness :
    upload_document ⟨"text/plain", "notes.txt", "CS101"⟩ sampleUploadEnv =
      ([], .error (uploadRejectError "text/plain")) :=
  C6_non_pdf_docx_rejected_before_effects ⟨"text/plain", "notes.txt", "CS101"⟩
    sampleUploadEnv (by decide)

/-! ## OAuth state map

Source: `app/tools/email_tools.py` `_oauth_states` (a process-local dict)
and `app/api/v1/endpoints/auth/google.py` `get_google_auth_url`
(lines 99-141) and `google_oauth_callback` (lines 143-237).  `created_at` is
carried as seconds rather than an ISO string; the callback compares
`utcnow() - created_at` against 600 seconds. -/

/-- One value of the `_oauth_states` map. -/
structure OAuthStateEntry where
  google_id : String
  email : String
  created_at : Nat
deriving DecidableEq

/-- The `_oauth_states` map, as an association list whose most recent
binding shadows older ones (like a dict assignment). -/
abbrev StateMap := List (String × OAuthStateEntry)

/-- Python `del _oauth_states[state]`. -/
def eraseState (m : StateMap) (s : String) : StateMap :=
  m.filter (fun p => p.1 != s)

/-- The state insertion of `get_google_auth_url` (lines 115-119). -/
def storeOauthState (m : StateMap) (state gid email : String) (now : Nat) :
    StateMap :=
  (state, ⟨gid, email, now⟩) :: m

/-- The token bundle returned by a successful callback. -/
structure GoogleTokens where
  access_token : String
  refresh_token : String
  expires_in : Nat
deriving DecidableEq

/-- Outcome of the Google code-for-token exchange: non-200 response, a body
that fails to parse as JSON, a JSON body with an `error` key, some other
exception raised during the exchange, or success. -/
inductive ExchangeOutcome where
  | httpError (text : String)
  | badJson (text : String)
  | tokenError (err : String)
  | raised (e : String)
  | success (tokens : GoogleTokens)
deriving DecidableEq

/-- Source: `google_oauth_callback`.  Absent state: 400, map unchanged (the
cleanup handler finds nothing to delete).  Present state: every exit path
deletes the entry — the expiry branch deletes it explicitly, and every other
raise is followed by the `except` handlers, which delete it when still
present; success deletes it after the exchange. -/
def google_oauth_callback (states : StateMap) (state caller_gid : String)
    (now : Nat) (credsOk : Bool) (exchange : ExchangeOutcome) :
    Except HttpError GoogleTokens × StateMap :=
  match states.lookup state with
  | none => (.error ⟨400, "Invalid or expired state parameter"⟩, states)
  | some user_data =>
    if user_data.google_id != caller_gid then
      (.error ⟨400, "State parameter does not match current user"⟩,
       eraseState states state)
    else if now - user_data.created_at > 600 then
      (.error ⟨400, "State parameter has expired"⟩, eraseState states state)
    else if !credsOk then
      (.error ⟨500, "Google OAuth credentials not configured"⟩,
       eraseState states state)
    else
      match exchange with
      | .httpError t =>
          (.error ⟨400, s!"Google token exchange failed: {t}"⟩,
           eraseState states state)
      | .badJson t =>
          (.error ⟨400, s!"Invalid response from Google: {t}"⟩,
           eraseState states state)
      | .tokenError e =>
          (.error ⟨400, s!"Token exchange failed: {e}"⟩,
           eraseState states state)
      | .raised e =>
          (.error ⟨500, s!"OAuth callback failed: {e}"⟩,
           eraseState states state)
      | .success tokens => (.ok tokens, eraseState states state)

theorem lookup_eraseState (m : StateMap) (s : String) :
    (eraseState m s).lookup s = none := by
  rw [List.lookup_eq_none_iff]
  intro p hp
  have h2 := (List.mem_filter.mp hp).2
  simp only [bne_iff_ne] at h2 ⊢
  exact fun hh => h2 hh.symm

theorem oauth_callback_absent (m : StateMap) (s gid : String) (now : Nat)
    (credsOk : Bool) (ex : ExchangeOutcome) (h : m.lookup s = none) :
    google_oauth_callback m s gid now credsOk ex =
      (.error ⟨400, "Invalid or expired state parameter"⟩, m) := by
  simp [google_oauth_callback, h]

theorem oauth_callback_deletes (m : StateMap) (s gid : String) (now : Nat)
    (credsOk : Bool) (ex : ExchangeOutcome) (e : OAuthStateEntry)
    (h : m.lookup s = some e) :
    ((google_oauth_callback m s gid now credsOk ex).2).lookup s = none := by
  simp only [google_oauth_callback, h]
  cases ex <;> split_ifs <;> simp [lookup_eraseState]

theorem oauth_callback_ok_implies (m : StateMap) (s gid : String) (now : Nat)
    (credsOk : Bool) (ex : ExchangeOutcome) (toks : GoogleTokens)
    (h : (google_oauth_callback m s gid now credsOk ex).1 = .ok toks) :
    ∃ e, m.lookup s = some e ∧ e.google_id = gid
      ∧ now - e.created_at ≤ 600 := by
  cases hl : m.lookup s with
  | none => simp [google_oauth_callback, hl] at h
  | some e =>
    refine ⟨e, rfl, ?_⟩
    simp only [google_oauth_callback, hl] at h
    by_cases h1 : (e.google_id != gid) = true
    · simp [h1] at h
    · have hg : e.google_id = gid := by simpa using h1
      by_cases h2 : now - e.created_at > 600
      · simp [h1, h2] at h
      · exact ⟨hg, by omega⟩

theorem oauth_callback_expired_rejects (m : StateMap) (s gid : String)
    (now : Nat) (credsOk : Bool) (ex : ExchangeOutcome) (e : OAuthStateEntry)
    (h : m.lookup s = some e) (hexp : 600 < now - e.created_at) :
    ∃ err, (google_oauth_callback m s gid now credsOk ex).1 =
      .error err := by
  simp only [google_oauth_callback, h]
  by_cases h1 : (e.google_id != gid) = true
  · exact ⟨⟨400, "State parameter does not match current user"⟩, by simp [h1]⟩
  · exact ⟨⟨400, "State parameter has expired"⟩, by simp [h1, hexp]⟩

/-- C8: OAuth state tokens are single-use and expire after 10 minutes.  The
callback rejects a state absent from the map (leaving the map unchanged) and
rejects a state whose `created_at` lies more than 600 seconds in the past;
whenever the callback finds the state entry — on success and on every error
— the entry is deleted; a callback only succeeds when the entry was present,
matched the caller and was fresh; consequently no state token is accepted by
two consecutive callback requests. -/
theorem C8_oauth_state_single_use :
    (∀ (m : StateMap) (s gid : String) (now : Nat) (credsOk : Bool)
       (ex : ExchangeOutcome), m.lookup s = none →
       google_oauth_callback m s gid now credsOk ex =
         (.error ⟨400, "Invalid or expired state parameter"⟩, m))
    ∧ (∀ (m : StateMap) (s gid : String) (now : Nat) (credsOk : Bool)
         (ex : ExchangeOutcome) (e : OAuthStateEntry), m.lookup s = some e →
         ((google_oauth_callback m s gid now credsOk ex).2).lookup s = none)
    ∧ (∀ (m : StateMap) (s gid : String) (now : Nat) (credsOk : Bool)
         (ex : ExchangeOutcome) (toks : GoogleTokens),
         (google_oauth_callback m s gid now credsOk ex).1 = .ok toks →
         ∃ e, m.lookup s = some e ∧ e.google_id = gid
           ∧ now - e.created_at ≤ 600)
    ∧ (∀ (m : StateMap) (s gid : String) (now : Nat) (credsOk : Bool)
         (ex : ExchangeOutcome) (e : OAuthStateEntry), m.lookup s = some e →
         600 < now - e.created_at →
         ∃ err, (google_oauth_callback m s gid now credsOk ex).1 =
           .error err)
    ∧ (∀ (m : StateMap) (s gid gid2 : String) (now now2 : Nat)
         (credsOk credsOk2 : Bool) (ex ex2 : ExchangeOutcome)
         (toks toks2 : GoogleTokens),
         (google_oauth_callback m s gid now credsOk ex).1 = .ok toks →
         (google_oauth_callback
           (google_oauth_callback m s gid now credsOk ex).2 s gid2 now2
           credsOk2 ex2).1 ≠ .ok toks2) := by
  refine ⟨oauth_callback_absent, oauth_callback_deletes,
    oauth_callback_ok_implies, oauth_callback_expired_rejects, ?_⟩
  intro m s gid gid2 now now2 credsOk credsOk2 ex ex2 toks toks2 h1 h2
  obtain ⟨e, he, -, -⟩ := oauth_callback_ok_implies m s gid now credsOk ex
    toks h1
  have hdel := oauth_callback_deletes m s gid now credsOk ex e he
  obtain ⟨e2, he2, -, -⟩ := oauth_callback_ok_implies _ s gid2 now2 credsOk2
    ex2 toks2 h2
  rw [hdel] at he2
  exact Option.noConfusion he2

/-- A concrete state map with one entry created at time 50. -/
def sampleStateMap : StateMap := [("s1", ⟨"g-1", "u@example.com", 50⟩)]

/-- Witness for C8 at a concrete map: a successful callback at time 100
deletes the entry, and a repeated callback with the same state token fails. -/
theorem C8_oauth_state_single_use_witness :
    ((google_oauth_callback sampleStateMap "s1" "g-1" 100 true
        (.success ⟨"a", "r", 3600⟩)).2).lookup "s1" = none
    ∧ (google_oauth_callback
        (google_oauth_callback sampleStateMap "s1" "g-1" 100 true
          (.success ⟨"a", "r", 3600⟩)).2 "s1" "g-1" 120 true
        (.success ⟨"a2", "r2", 3600⟩)).1 ≠ .ok ⟨"a2", "r2", 3600⟩ :=
  ⟨C8_oauth_state_single_use.2.1 sampleStateMap "s1" "g-1" 100 true
      (.success ⟨"a", "r", 3600⟩) ⟨"g-1", "u@example.com", 50⟩ rfl,
   C8_oauth_state_single_use.2.2.2.2 sampleStateMap "s1" "g-1" "g-1" 100 120
      true true (.success ⟨"a", "r", 3600⟩) (.success ⟨"a2", "r2", 3600⟩)
      ⟨"a", "r", 3600⟩ ⟨"a2", "r2", 3600⟩ rfl⟩

/-! ## API routers and health endpoints

Source: `app/api/v1/api.py` (router inclusion, with prefixes) and the route
decorators of the six endpoint modules.  Paths are given fully mounted
(inclusion prefix applied).  A handler is tagged `health` exactly when it is
one of the `*_health_check` functions returning
`{"status": "healthy", "service": <name>}`. -/

/-- The body returned by a health-check handler. -/
structure HealthResponse where
  status : String
  service : String
deriving DecidableEq

/-- A route handler: a health check with its fixed response body, or any
other handler identified by its function name. -/
inductive Handler where
  | health (response : HealthResponse)
  | other (name : String)
deriving DecidableEq

/-- One route: HTTP method, mounted path pattern, handler. -/
structure Route where
  method : String
  path : String
  handler : Handler
deriving DecidableEq

/-- Routes of `chat_supabase.py` (included without prefix). -/
def chat_routes : List Route :=
  [⟨"POST", "/chat", .other "chat_endpoint"⟩,
   ⟨"GET", "/chat/messages", .other "get_chat_messages"⟩,
   ⟨"GET", "/chat/health", .health ⟨"healthy", "chat_supabase"⟩⟩,
   ⟨"POST", "/chat/test", .other "test_chat_endpoint"⟩]

/-- Routes of `conversations.py` (included without prefix). -/
def conversations_routes : List Route :=
  [⟨"POST", "/conversations", .other "create_new_conversation"⟩,
   ⟨"GET", "/conversations", .other "list_conversations"⟩,
   ⟨"DELETE", "/conversations/{conversation_id}",
     .other "delete_conversation_endpoint"⟩,
   ⟨"PUT", "/conversations/{conversation_id}", .other "update_conversation"⟩,
   ⟨"GET", "/conversations/{conversation_id}/messages",
     .other "get_conversation_messages"⟩,
   ⟨"POST", "/conversations/{conversation_id}/messages",
     .other "add_message_endpoint"⟩,
   ⟨"GET", "/conversations/health", .health ⟨"healthy", "conversations"⟩⟩]

/-- Routes of `documents.py` (prefix `/documents`).  No health route exists;
a request for `GET /documents/health` is captured by the
`GET /documents/{document_id}` pattern. -/
def documents_routes : List Route :=
  [⟨"GET", "/documents/user", .other "get_user_documents"⟩,
   ⟨"POST", "/documents/upload", .other "upload_document"⟩,
   ⟨"DELETE", "/documents/{document_id}", .other "delete_document"⟩,
   ⟨"GET", "/documents/{document_id}", .other "get_document"⟩]

/-- Routes of `gmail.py` (prefix `/gmail`). -/
def gmail_routes : List Route :=
  [⟨"GET", "/gmail/info", .other "get_gmail_info"⟩,
   ⟨"GET", "/gmail/health", .health ⟨"healthy", "gmail"⟩⟩]

/-- Routes of `attendance.py` (prefix `/attendance`). -/
def attendance_routes : List Route :=
  [⟨"POST", "/attendance/mark", .other "mark_attendance_endpoint"⟩,
   ⟨"GET", "/attendance/stats", .other "get_attendance_stats"⟩,
   ⟨"GET", "/attendance/health", .health ⟨"healthy", "attendance"⟩⟩]

/-- Routes of `auth/google.py` (prefix `/auth`). -/
def auth_routes : List Route :=
  [⟨"GET", "/auth/me", .other "get_current_user"⟩,
   ⟨"POST", "/auth/sync-user", .other "sync_user_with_database"⟩,
   ⟨"GET", "/auth/google-auth-url", .other "get_google_auth_url"⟩,
   ⟨"GET", "/auth/google-callback", .other "google_oauth_callback"⟩,
   ⟨"POST", "/auth/google-tokens", .other "store_google_tokens"⟩,
   ⟨"GET", "/auth/google-tokens", .other "get_google_tokens"⟩,
   ⟨"GET", "/auth/health", .health ⟨"healthy", "auth"⟩⟩]

/-- The router inclusions of `api.py`, in order. -/
def api_router : List (String × List Route) :=
  [("chat", chat_routes), ("conversations", conversations_routes),
   ("documents", documents_routes), ("gmail", gmail_routes),
   ("attendance", attendance_routes), ("auth", auth_routes)]

/-- Is this route a GET health endpoint returning `{status: "healthy"}`? -/
def isHealthRoute (r : Route) : Bool :=
  r.method == "GET" &&
    (match r.handler with
     | .health h => h.status == "healthy"
     | .other _ => false)

/-- C9 (counterexample): the documents router is included in the API but
exposes no health endpoint at all — none of its routes is a GET health
route. -/
theorem C9_documents_router_has_no_health_counterexample :
    ("documents", documents_routes) ∈ api_router
    ∧ documents_routes.all (fun r => !isHealthRoute r) = true := by
  decide

/-- C9 (amended): of the six routers included in the API, five — chat,
conversations, gmail, attendance, auth — expose a GET health endpoint
returning `{status: "healthy", service: <name>}` with a service name
identifying the router; the documents router exposes none (a request for
`GET /documents/health` falls through to the `GET /documents/{document_id}`
handler). -/
theorem C9_health_endpoints_by_router :
    api_router.map Prod.fst =
      ["chat", "conversations", "documents", "gmail", "attendance", "auth"]
    ∧ Route.mk "GET" "/chat/health" (.health ⟨"healthy", "chat_supabase"⟩) ∈
        chat_routes
    ∧ Route.mk "GET" "/conversations/health"
        (.health ⟨"healthy", "conversations"⟩) ∈ conversations_routes
    ∧ Route.mk "GET" "/gmail/health" (.health ⟨"healthy", "gmail"⟩) ∈
        gmail_routes
    ∧ Route.mk "GET" "/attendance/health" (.health ⟨"healthy", "attendance"⟩) ∈
        attendance_routes
    ∧ Route.mk "GET" "/auth/health" (.health ⟨"healthy", "auth"⟩) ∈
        auth_routes
    ∧ documents_routes.all (fun r => !isHealthRoute r) = true := by
  decide
